import Mathlib

/-!
Verification of `docs/examples/cpp/actuator_sensor_control.cpp`.

The C++ file implements, for a simulated humanoid robot:
  * `Actuator` — a torque sink that clamps every command to
    `[-max_torque_, max_torque_]` (`std::clamp`) and stores it;
  * `JointController::update(dt)` — one PID step (with the integral
    accumulated before use and the derivative `(error - last_error_) / dt`),
    followed by a velocity interlock (`|velocity| > max_velocity_` forces the
    command to 0), a thermal derate (`temperature > max_temperature_ * 0.9`
    halves the command), the command being sent to the actuator, and the
    un-clamped command being written back into the position sensor's state;
  * `ImuSensor::read()` — integrates angular velocity into the quaternion's
    x/y components with a fixed step `dt = 0.01` and factor `0.5`, then
    renormalizes the quaternion when its norm is positive;
  * `SensorFusion` — keyed joint/IMU stores plus a scalar balance estimate
    updated by two exponential moving averages (weights 0.7/0.3 for hip
    joints, 0.8/0.2 for IMU roll extracted by `atan2`);
  * `SafetyMonitor::checkSafety()` — a latching emergency stop: a failing
    controller trips the latch, a disconnected sensor only fails the cycle.

Modelling conventions:
  * C++ `double` arithmetic is modelled by exact rationals (`ℚ`); the IMU
    and fusion paths, which use `sqrt` and `atan2`, are modelled over `ℝ`.
  * Numeric literals such as `0.9`, `0.5`, `0.01` are the exact rationals
    `9/10`, `1/2`, `1/100`.
  * `JointSensor::read()` perturbs the state with time- and counter-driven
    noise; a measurement is therefore an arbitrary `JointState` input to the
    functions that consume it, exactly as the control code reads it.
  * `JointController::update` divides by `dt` with no guard; since `ℚ` has
    no IEEE infinities or NaNs, the embedding returns `none` when that
    division by zero is reached (`dt = 0` on an enabled controller), and
    `some` of the updated controller/actuator/sensor-state triple otherwise.
  * The controller's `min_position_`/`max_position_` fields (only used by
    `setTargetPosition` and `isSafe`, which no claim's code path exercises
    numerically) are omitted; the monitor sees controllers and sensors
    through the booleans `isSafe()`/`isConnected()` return, so they are
    modelled as boolean inputs per call.
  * `Actuator::setTorque` always returns `true` and sleeps 1 ms; the return
    value and the delay are irrelevant to the stored value and are dropped.
-/

namespace ActuatorSensorControl

/-- `struct JointState` (the fields the control law reads/writes;
timestamps are not modelled). -/
structure JointState where
  position : ℚ
  velocity : ℚ
  torque : ℚ
  temperature : ℚ
deriving DecidableEq

/-- `std::clamp(v, lo, hi)`: `v < lo ? lo : hi < v ? hi : v`. -/
def clampQ (v lo hi : ℚ) : ℚ :=
  if v < lo then lo else if hi < v then hi else v

/-- `class Actuator`: the stored torque and the configured limit. -/
structure Actuator where
  current_torque : ℚ
  max_torque : ℚ
deriving DecidableEq

/-- `Actuator::setTorque`: clamp the command to
`[-max_torque_, max_torque_]` and store it. -/
def Actuator.setTorque (a : Actuator) (torque : ℚ) : Actuator :=
  { a with current_torque := clampQ torque (-a.max_torque) a.max_torque }

/-- `class JointController`: control parameters and PID state
(constructor defaults: `kp = 100`, `ki = 10`, `kd = 5`,
`max_temperature = 70`, `max_velocity = 5`). -/
structure JointController where
  target_position : ℚ
  kp : ℚ
  ki : ℚ
  kd : ℚ
  error_sum : ℚ
  last_error : ℚ
  max_temperature : ℚ
  max_velocity : ℚ
  enabled : Bool
deriving DecidableEq

/-- `JointController::update(dt)`. Disabled controllers return immediately.
The measured state `s` is what `position_sensor_.getState()` returned after
`read()`. Returns the updated controller, the actuator after
`setTorque(torque_command)`, and the sensor state written back by
`setState` (whose `torque` field is the pre-clamp command); `none` marks
the unguarded division `(error - last_error_) / dt` being reached with
`dt = 0`, which exact rationals cannot represent. -/
def JointController.update (c : JointController) (a : Actuator) (s : JointState)
    (dt : ℚ) : Option (JointController × Actuator × JointState) :=
  if c.enabled = false then some (c, a, s)
  else if dt = 0 then none
  else
    let error := c.target_position - s.position
    let error_sum' := c.error_sum + error * dt
    let error_derivative := (error - c.last_error) / dt
    let torque_pid := c.kp * error + c.ki * error_sum' + c.kd * error_derivative
    let torque_v := if c.max_velocity < |s.velocity| then 0 else torque_pid
    let torque_command :=
      if c.max_temperature * (9 / 10) < s.temperature then torque_v * (1 / 2)
      else torque_v
    some ({ c with error_sum := error_sum', last_error := error },
          a.setTorque torque_command,
          { s with torque := torque_command })

/-- One `checkSafety()` cycle's inputs: the values `isSafe()` returns for
the registered controllers and `isConnected()` for the registered joint and
IMU sensors, in registration order. -/
structure CheckIn where
  ctrls : List Bool
  joint_sensors : List Bool
  imu_sensors : List Bool
deriving DecidableEq

/-- `SafetyMonitor::checkSafety()`: given the current
`emergency_stop_active_` flag and the cycle's inputs, return
(result, new flag). An active stop or a failing controller reports unsafe
and leaves/sets the flag; a disconnected sensor reports unsafe without
touching the flag; otherwise the cycle is safe. -/
def checkSafety (estop : Bool) (i : CheckIn) : Bool × Bool :=
  if estop then (false, true)
  else if i.ctrls.any (fun b => !b) then (false, true)
  else if i.joint_sensors.any (fun b => !b) then (false, false)
  else if i.imu_sensors.any (fun b => !b) then (false, false)
  else (true, false)

/-- `SafetyMonitor::triggerEmergencyStop()`: unconditionally sets the flag. -/
def triggerEmergencyStop (_estop : Bool) : Bool := true

/-- Results of a sequence of `checkSafety()` calls starting from a given
flag value, threading the flag. -/
def traceFrom (estop : Bool) : List CheckIn → List Bool
  | [] => []
  | i :: is => (checkSafety estop i).1 :: traceFrom (checkSafety estop i).2 is

/-- The `emergency_stop_active_` flag after a sequence of `checkSafety()`
calls. -/
def estopAfter (estop : Bool) (l : List CheckIn) : Bool :=
  l.foldl (fun e i => (checkSafety e i).2) estop

/-- `struct ImuData`'s orientation quaternion `[x, y, z, w]`
(angular velocity and linear acceleration are fed into `read` as inputs;
timestamps are not modelled). -/
structure ImuData where
  qx : ℝ
  qy : ℝ
  qz : ℝ
  qw : ℝ

/-- The initial orientation `{0, 0, 0, 1}`. -/
noncomputable def initImu : ImuData := ⟨0, 0, 0, 1⟩

/-- `ImuSensor::read()`: integrate the (noisy, time-driven — here arbitrary)
angular velocities `wx`, `wy` into the x/y quaternion components with the
fixed step `dt = 0.01` and factor `0.5`, then normalize when the norm is
positive. -/
noncomputable def ImuSensor.read (d : ImuData) (wx wy : ℝ) : ImuData :=
  let x := d.qx + wx * (1 / 100) * (1 / 2)
  let y := d.qy + wy * (1 / 100) * (1 / 2)
  let norm := Real.sqrt (x * x + y * y + d.qz * d.qz + d.qw * d.qw)
  if 0 < norm then ⟨x / norm, y / norm, d.qz / norm, d.qw / norm⟩
  else ⟨x, y, d.qz, d.qw⟩

/-- Euclidean norm of the stored quaternion. -/
noncomputable def quatNorm (d : ImuData) : ℝ :=
  Real.sqrt (d.qx * d.qx + d.qy * d.qy + d.qz * d.qz + d.qw * d.qw)

/-- The orientation after a sequence of `read()` calls, each with its pair
of angular-velocity inputs. -/
noncomputable def runReads (d : ImuData) : List (ℝ × ℝ) → ImuData
  | [] => d
  | (wx, wy) :: rest => runReads (ImuSensor.read d wx wy) rest

/-- `needle` matches at the front of the second list. -/
def beginsWith : List Char → List Char → Bool
  | [], _ => true
  | _ :: _, [] => false
  | a :: as, b :: bs => (a == b) && beginsWith as bs

/-- `haystack.find(needle) != npos`: `needle` occurs contiguously in the
second list. -/
def containsSeq (needle : List Char) : List Char → Bool
  | [] => beginsWith needle []
  | c :: cs => beginsWith needle (c :: cs) || containsSeq needle cs

/-- `std::map::operator[]` assignment on an association list. -/
def assocSet {α : Type} (l : List (String × α)) (k : String) (v : α) :
    List (String × α) :=
  match l with
  | [] => [(k, v)]
  | (k', v') :: rest =>
    if k' = k then (k, v) :: rest else (k', v') :: assocSet rest k v

/-- `atan2(y, x)`, as the argument of the complex number `x + y·i`. -/
noncomputable def atanTwo (y x : ℝ) : ℝ := Complex.arg ⟨x, y⟩

/-- `class SensorFusion`: keyed stores plus the balance estimate and the
(decision-unused) confidence. -/
structure SensorFusion where
  joint_states : List (String × JointState)
  imu_data : List (String × ImuData)
  balance_estimate : ℝ
  confidence : ℝ

/-- `SensorFusion::updateBalanceEstimate`:
`estimate = 0.7·estimate + 0.3·position`. -/
noncomputable def updateBalanceEstimate (f : SensorFusion) (joint_position : ℝ) :
    SensorFusion :=
  { f with balance_estimate :=
      (7 / 10) * f.balance_estimate + (3 / 10) * joint_position }

/-- Roll extraction from the quaternion:
`atan2(2(w·x + y·z), 1 − 2(x² + y²))`. -/
noncomputable def rollOf (d : ImuData) : ℝ :=
  atanTwo (2 * (d.qw * d.qx + d.qy * d.qz))
    (1 - 2 * (d.qx * d.qx + d.qy * d.qy))

/-- `SensorFusion::updateBalanceEstimateFromImu`:
`estimate = 0.8·estimate + 0.2·roll`. -/
noncomputable def updateBalanceEstimateFromImu (f : SensorFusion) (d : ImuData) :
    SensorFusion :=
  { f with balance_estimate :=
      (8 / 10) * f.balance_estimate + (2 / 10) * rollOf d }

/-- `SensorFusion::updateJointState`: store the state under the joint's
name; when the name contains `"hip"`, fold the position into the balance
estimate. -/
noncomputable def updateJointState (f : SensorFusion) (joint_name : String)
    (state : JointState) : SensorFusion :=
  let f' := { f with joint_states := assocSet f.joint_states joint_name state }
  if containsSeq ['h', 'i', 'p'] joint_name.data then
    updateBalanceEstimate f' (state.position : ℝ)
  else f'

/-- `SensorFusion::updateImuData`: store the sample under the sensor's
name and fold the extracted roll into the balance estimate. -/
noncomputable def updateImuData (f : SensorFusion) (sensor_name : String)
    (d : ImuData) : SensorFusion :=
  let f' := { f with imu_data := assocSet f.imu_data sensor_name d }
  updateBalanceEstimateFromImu f' d

/-! ### Theorems -/

/-- Claim C3: every torque stored by `Actuator::setTorque` lies in
`[-max_torque, max_torque]` (given a nonnegative limit, so the interval is
nonempty), and the clamp is idempotent: a command already in the interval
is stored unchanged. -/
theorem setTorque_clamps_and_idempotent (a : Actuator) (t : ℚ)
    (h : 0 ≤ a.max_torque) :
    (-a.max_torque ≤ (a.setTorque t).current_torque ∧
      (a.setTorque t).current_torque ≤ a.max_torque) ∧
    (-a.max_torque ≤ t → t ≤ a.max_torque →
      (a.setTorque t).current_torque = t) := by
  simp only [Actuator.setTorque, clampQ]
  refine ⟨⟨?_, ?_⟩, fun hlo hhi => ?_⟩ <;> split_ifs with h1 h2 <;> linarith

/-- Witness for C3 at `max_torque = 50`, command `60`. -/
theorem setTorque_clamps_and_idempotent_witness :
    (-(50 : ℚ) ≤ ((⟨0, 50⟩ : Actuator).setTorque 60).current_torque ∧
      ((⟨0, 50⟩ : Actuator).setTorque 60).current_torque ≤ 50) ∧
    (-(50 : ℚ) ≤ 60 → (60 : ℚ) ≤ 50 →
      ((⟨0, 50⟩ : Actuator).setTorque 60).current_torque = 60) :=
  setTorque_clamps_and_idempotent ⟨0, 50⟩ 60 (by norm_num)

/-- Claim C2: on an enabled controller, whenever the measured
`|velocity| > max_velocity`, `update` commands exactly torque `0` to the
actuator, whatever the PID terms and whether or not the thermal derate also
fires (`dt ≠ 0` keeps the unguarded derivative division defined). -/
theorem update_velocity_interlock (c : JointController) (a : Actuator)
    (s : JointState) (dt : ℚ) (he : c.enabled = true) (hdt : dt ≠ 0)
    (hv : c.max_velocity < |s.velocity|) :
    ∃ c' s', c.update a s dt = some (c', a.setTorque 0, s') ∧ s'.torque = 0 := by
  have h1 : ¬(c.enabled = false) := by simp [he]
  unfold JointController.update
  rw [if_neg h1, if_neg hdt]
  by_cases ht : c.max_temperature * (9 / 10) < s.temperature
  · simp only [if_pos hv, if_pos ht, zero_mul]
    exact ⟨_, _, rfl, rfl⟩
  · simp only [if_pos hv, if_neg ht]
    exact ⟨_, _, rfl, rfl⟩

/-- Witness for C2: velocity 6 against limit 5 commands torque 0. -/
theorem update_velocity_interlock_witness :
    ∃ c' s',
      JointController.update ⟨0, 100, 10, 5, 0, 0, 70, 5, true⟩ ⟨0, 50⟩
          ⟨0, 6, 0, 25⟩ (1 / 100) =
        some (c', Actuator.setTorque ⟨0, 50⟩ 0, s') ∧ s'.torque = 0 :=
  update_velocity_interlock ⟨0, 100, 10, 5, 0, 0, 70, 5, true⟩ ⟨0, 50⟩
    ⟨0, 6, 0, 25⟩ (1 / 100) rfl (by norm_num) (by norm_num)

/-- Claim C6 (code side): `JointController::update` has no guard against
`dt = 0` — on any enabled controller the unguarded division
`(error - last_error_) / dt` is reached with a zero divisor (surfaced as
`none` in this exact-arithmetic embedding), instead of the call being
rejected or defaulted. -/
theorem update_reaches_division_by_zero (tgt kp ki kd es le maxT maxV : ℚ)
    (a : Actuator) (s : JointState) :
    JointController.update ⟨tgt, kp, ki, kd, es, le, maxT, maxV, true⟩ a s 0 =
      none := by
  simp [JointController.update]

/-- Claim C9: with the constructor gains (`kp = 100`, `ki = 10`, `kd = 5`),
target 0 and `dt = 0.01`, one `update` from rest (position, velocity,
accumulators all 0, default temperature 25) commands torque exactly 0 and
leaves controller, actuator and sensor state unchanged. -/
theorem update_zero_error_zero_torque :
    JointController.update ⟨0, 100, 10, 5, 0, 0, 70, 5, true⟩ ⟨0, 50⟩
        ⟨0, 0, 0, 25⟩ (1 / 100) =
      some (⟨0, 100, 10, 5, 0, 0, 70, 5, true⟩, ⟨0, 50⟩, ⟨0, 0, 0, 25⟩) := by
  norm_num [JointController.update, Actuator.setTorque, clampQ]

/-- Claim C5: on an enabled controller, when the measured temperature
exceeds `0.9 · max_temperature` and the velocity interlock does not fire
(`|velocity| ≤ max_velocity`), `update` commands exactly half the raw PID
output `kp·error + ki·integral + kd·derivative` to the actuator. -/
theorem update_thermal_derate (c : JointController) (a : Actuator)
    (s : JointState) (dt : ℚ) (he : c.enabled = true) (hdt : dt ≠ 0)
    (hv : |s.velocity| ≤ c.max_velocity)
    (ht : c.max_temperature * (9 / 10) < s.temperature) :
    ∃ c' s',
      c.update a s dt =
        some (c',
          a.setTorque
            ((c.kp * (c.target_position - s.position) +
              c.ki * (c.error_sum + (c.target_position - s.position) * dt) +
              c.kd * ((c.target_position - s.position - c.last_error) / dt)) *
              (1 / 2)),
          s') ∧
      s'.torque =
        (c.kp * (c.target_position - s.position) +
          c.ki * (c.error_sum + (c.target_position - s.position) * dt) +
          c.kd * ((c.target_position - s.position - c.last_error) / dt)) *
          (1 / 2) := by
  have h1 : ¬(c.enabled = false) := by simp [he]
  unfold JointController.update
  rw [if_neg h1, if_neg hdt]
  simp only [if_neg (not_lt.mpr hv), if_pos ht]
  exact ⟨_, _, rfl, rfl⟩

/-- Witness for C5: temperature 64 against limit 70 (90 % mark 63),
velocity 0, target 1, `dt = 1`. -/
theorem update_thermal_derate_witness :
    ∃ c' s',
      JointController.update ⟨1, 100, 10, 5, 0, 0, 70, 5, true⟩ ⟨0, 50⟩
          ⟨0, 0, 0, 64⟩ 1 =
        some (c',
          Actuator.setTorque ⟨0, 50⟩
            ((100 * ((1 : ℚ) - 0) + 10 * (0 + ((1 : ℚ) - 0) * 1) +
              5 * (((1 : ℚ) - 0 - 0) / 1)) * (1 / 2)),
          s') ∧
      s'.torque =
        (100 * ((1 : ℚ) - 0) + 10 * (0 + ((1 : ℚ) - 0) * 1) +
          5 * (((1 : ℚ) - 0 - 0) / 1)) * (1 / 2) :=
  update_thermal_derate ⟨1, 100, 10, 5, 0, 0, 70, 5, true⟩ ⟨0, 50⟩
    ⟨0, 0, 0, 64⟩ 1 rfl one_ne_zero (by norm_num) (by norm_num)

/-- Claim C10: after every `update` on an enabled controller, the sensor
state written back by `setState` carries the torque command as computed
after the interlock and the derate but before the actuator's clamp (the
actuator stores exactly the clamp of that value); and that stored command
can exceed the actuator's `max_torque` even though the actuator's own
stored torque never does. -/
theorem update_writes_preclamp_torque :
    (∀ (c : JointController) (a : Actuator) (s : JointState) (dt : ℚ),
      c.enabled = true → dt ≠ 0 →
      ∃ c' a' s',
        c.update a s dt = some (c', a', s') ∧ a' = a.setTorque s'.torque) ∧
    (∃ (c : JointController) (a : Actuator) (s : JointState) (dt : ℚ)
      (c' : JointController) (a' : Actuator) (s' : JointState),
      c.update a s dt = some (c', a', s') ∧ a.max_torque < s'.torque ∧
        a'.current_torque = a.max_torque) := by
  constructor
  · intro c a s dt he hdt
    have h1 : ¬(c.enabled = false) := by simp [he]
    unfold JointController.update
    rw [if_neg h1, if_neg hdt]
    exact ⟨_, _, _, rfl, rfl⟩
  · refine ⟨⟨3, 100, 10, 5, 0, 0, 70, 5, true⟩, ⟨0, 50⟩, ⟨0, 0, 0, 25⟩,
      1 / 100, ⟨3, 100, 10, 5, 3 / 100, 3, 70, 5, true⟩, ⟨50, 50⟩,
      ⟨0, 0, 18003 / 10, 25⟩, ?_, ?_, ?_⟩
    · norm_num [JointController.update, Actuator.setTorque, clampQ]
    · norm_num
    · rfl

/-- Witness for C10's universal part at a concrete enabled controller. -/
theorem update_writes_preclamp_torque_witness :
    ∃ c' a' s',
      JointController.update ⟨0, 100, 10, 5, 0, 0, 70, 5, true⟩ ⟨0, 50⟩
          ⟨0, 0, 0, 25⟩ 1 =
        some (c', a', s') ∧ a' = Actuator.setTorque ⟨0, 50⟩ s'.torque :=
  update_writes_preclamp_torque.1 ⟨0, 100, 10, 5, 0, 0, 70, 5, true⟩ ⟨0, 50⟩
    ⟨0, 0, 0, 25⟩ 1 rfl one_ne_zero

/-- A `checkSafety()` call on a tripped monitor reports unsafe and keeps
the latch. -/
theorem checkSafety_of_tripped (i : CheckIn) : checkSafety true i = (false, true) := by
  simp [checkSafety]

/-- Every result of a run of `checkSafety()` calls from a tripped monitor
is unsafe. -/
theorem traceFrom_of_tripped (rest : List CheckIn) :
    ∀ r ∈ traceFrom true rest, r = false := by
  induction rest with
  | nil => intro r hr; simp [traceFrom] at hr
  | cons i is ih =>
    intro r hr
    rw [traceFrom, checkSafety_of_tripped] at hr
    rcases List.mem_cons.mp hr with h | h
    · exact h
    · exact ih r h

/-- The latch survives any run of `checkSafety()` calls. -/
theorem estopAfter_of_tripped (rest : List CheckIn) :
    estopAfter true rest = true := by
  induction rest with
  | nil => rfl
  | cons i is ih =>
    show List.foldl _ ((checkSafety true i).2) is = true
    rw [checkSafety_of_tripped]
    exact ih

/-- A cycle on which some controller's `isSafe()` is `false` reports
unsafe and trips the latch, from any starting flag. -/
theorem checkSafety_of_ctrl_fail (b : Bool) (i : CheckIn)
    (h : i.ctrls.any (fun x => !x) = true) : checkSafety b i = (false, true) := by
  cases b
  · simp [checkSafety, h]
  · exact checkSafety_of_tripped i

/-- Claim C1: once a registered controller's `isSafe()` returns `false`
during a `checkSafety()` call, that call reports unsafe and trips the
latch, every subsequent `checkSafety()` call in the run reports unsafe
whatever its controller/sensor inputs, and the latch never returns to
`false` (and `triggerEmergencyStop` only ever sets it). -/
theorem checkSafety_latching (b : Bool) (i : CheckIn)
    (h : i.ctrls.any (fun x => !x) = true) (rest : List CheckIn) :
    checkSafety b i = (false, true) ∧
    (∀ r ∈ traceFrom (checkSafety b i).2 rest, r = false) ∧
    estopAfter (checkSafety b i).2 rest = true ∧
    triggerEmergencyStop (checkSafety b i).2 = true := by
  have hc := checkSafety_of_ctrl_fail b i h
  rw [hc]
  exact ⟨rfl, traceFrom_of_tripped rest, estopAfter_of_tripped rest, rfl⟩

/-- Witness for C1: one failing controller, then a nominal cycle that
still reports unsafe. -/
theorem checkSafety_latching_witness :
    checkSafety false ⟨[false], [true], [true]⟩ = (false, true) ∧
    (∀ r ∈ traceFrom (checkSafety false ⟨[false], [true], [true]⟩).2
        [⟨[true], [true], [true]⟩], r = false) ∧
    estopAfter (checkSafety false ⟨[false], [true], [true]⟩).2
        [⟨[true], [true], [true]⟩] = true ∧
    triggerEmergencyStop (checkSafety false ⟨[false], [true], [true]⟩).2 = true :=
  checkSafety_latching false ⟨[false], [true], [true]⟩ (by decide)
    [⟨[true], [true], [true]⟩]

/-- A list of booleans that are all `true` has no failing element. -/
theorem all_id_no_fail (l : List Bool) (h : l.all id = true) :
    l.any (fun x => !x) = false := by
  cases hany : l.any (fun x => !x) with
  | false => rfl
  | true =>
    obtain ⟨x, hx, hx2⟩ := List.any_eq_true.mp hany
    have hx3 := List.all_eq_true.mp h x hx
    simp at hx3 hx2
    exact absurd hx3 (by simp [hx2])

/-- Claim C7: with the latch clear and every controller safe, a
disconnected sensor makes `checkSafety()` report unsafe for that cycle
without tripping the latch; a following cycle with everything nominal
reports safe again. -/
theorem checkSafety_sensor_nonlatching (i j : CheckIn)
    (hc : i.ctrls.all id = true)
    (hs : (i.joint_sensors ++ i.imu_sensors).any (fun x => !x) = true)
    (hc2 : j.ctrls.all id = true) (hj2 : j.joint_sensors.all id = true)
    (hi2 : j.imu_sensors.all id = true) :
    checkSafety false i = (false, false) ∧
    checkSafety (checkSafety false i).2 j = (true, false) := by
  have h1 := all_id_no_fail _ hc
  have hfirst : checkSafety false i = (false, false) := by
    rw [List.any_append, Bool.or_eq_true] at hs
    rcases hs with hjj | hii
    · simp [checkSafety, h1, hjj]
    · by_cases hjs : i.joint_sensors.any (fun x => !x) = true
      · simp [checkSafety, h1, hjs]
      · simp [checkSafety, h1, hjs, hii]
  refine ⟨hfirst, ?_⟩
  rw [hfirst]
  simp [checkSafety, all_id_no_fail _ hc2, all_id_no_fail _ hj2,
    all_id_no_fail _ hi2]

/-- Witness for C7: one disconnected joint sensor, then a nominal cycle. -/
theorem checkSafety_sensor_nonlatching_witness :
    checkSafety false ⟨[true], [false], [true]⟩ = (false, false) ∧
    checkSafety (checkSafety false ⟨[true], [false], [true]⟩).2
        ⟨[true], [true], [true]⟩ = (true, false) :=
  checkSafety_sensor_nonlatching ⟨[true], [false], [true]⟩
    ⟨[true], [true], [true]⟩ (by decide) (by decide) (by decide) (by decide)
    (by decide)

/-- One `ImuSensor::read()` from a state with positive `w` keeps `w`
positive and leaves a quaternion of norm exactly 1 (the normalization
branch is taken because the norm is positive). -/
theorem read_normalizes (d : ImuData) (wx wy : ℝ) (h : 0 < d.qw) :
    0 < (ImuSensor.read d wx wy).qw ∧ quatNorm (ImuSensor.read d wx wy) = 1 := by
  simp only [ImuSensor.read]
  set x := d.qx + wx * (1 / 100) * (1 / 2) with hxdef
  set y := d.qy + wy * (1 / 100) * (1 / 2) with hydef
  have hs0 : 0 < x * x + y * y + d.qz * d.qz + d.qw * d.qw := by
    nlinarith [mul_self_nonneg x, mul_self_nonneg y, mul_self_nonneg d.qz]
  have hn : 0 < Real.sqrt (x * x + y * y + d.qz * d.qz + d.qw * d.qw) :=
    Real.sqrt_pos.mpr hs0
  rw [if_pos hn]
  constructor
  · exact div_pos h hn
  · have hsq :
        Real.sqrt (x * x + y * y + d.qz * d.qz + d.qw * d.qw) *
          Real.sqrt (x * x + y * y + d.qz * d.qz + d.qw * d.qw) =
        x * x + y * y + d.qz * d.qz + d.qw * d.qw :=
      Real.mul_self_sqrt hs0.le
    have hcollect :
        x / Real.sqrt (x * x + y * y + d.qz * d.qz + d.qw * d.qw) *
            (x / Real.sqrt (x * x + y * y + d.qz * d.qz + d.qw * d.qw)) +
          y / Real.sqrt (x * x + y * y + d.qz * d.qz + d.qw * d.qw) *
            (y / Real.sqrt (x * x + y * y + d.qz * d.qz + d.qw * d.qw)) +
          d.qz / Real.sqrt (x * x + y * y + d.qz * d.qz + d.qw * d.qw) *
            (d.qz / Real.sqrt (x * x + y * y + d.qz * d.qz + d.qw * d.qw)) +
          d.qw / Real.sqrt (x * x + y * y + d.qz * d.qz + d.qw * d.qw) *
            (d.qw / Real.sqrt (x * x + y * y + d.qz * d.qz + d.qw * d.qw)) =
        (x * x + y * y + d.qz * d.qz + d.qw * d.qw) /
          (Real.sqrt (x * x + y * y + d.qz * d.qz + d.qw * d.qw) *
            Real.sqrt (x * x + y * y + d.qz * d.qz + d.qw * d.qw)) := by
      ring
    simp only [quatNorm]
    rw [hcollect, hsq, div_self hs0.ne']
    exact Real.sqrt_one

/-- Along any run of `read()` calls, positivity of the quaternion's `w`
component is preserved. -/
theorem runReads_qw_pos (L : List (ℝ × ℝ)) :
    ∀ d : ImuData, 0 < d.qw → 0 < (runReads d L).qw := by
  induction L with
  | nil => intro d h; exact h
  | cons p rest ih =>
    intro d h
    obtain ⟨wx, wy⟩ := p
    show 0 < (runReads (ImuSensor.read d wx wy) rest).qw
    exact ih _ (read_normalizes d wx wy h).1

/-- Claim C4: after every `ImuSensor::read()` call, reached by any
sequence of `read()` calls from the initial orientation `(0, 0, 0, 1)`,
the stored quaternion's Euclidean norm is 1 within tolerance `1e-9` (it is
exactly 1 in exact arithmetic). -/
theorem imu_read_unit_norm (L : List (ℝ × ℝ)) (wx wy : ℝ) :
    |quatNorm (ImuSensor.read (runReads initImu L) wx wy) - 1| ≤ 1 / 1000000000 := by
  have h0 : 0 < initImu.qw := by norm_num [initImu]
  have h := (read_normalizes (runReads initImu L) wx wy
    (runReads_qw_pos L initImu h0)).2
  rw [h]
  norm_num

/-- The joint name `"left_hip"` used by `HumanoidController`. -/
def leftHip : String := "left_hip"

/-- The IMU name `"torso_imu"` used by `HumanoidController`. -/
def torsoImu : String := "torso_imu"

/-- A concrete orientation whose extracted roll is exactly `0.1`:
`(sin 0.05, 0, 0, cos 0.05)`. -/
noncomputable def rollSample : ImuData :=
  ⟨Real.sin (1 / 20), 0, 0, Real.cos (1 / 20)⟩

/-- The roll extracted from `rollSample` is `0.1`. -/
theorem rollSample_roll : rollOf rollSample = 0.1 := by
  simp only [rollOf, rollSample, atanTwo]
  have h1 : 2 * (Real.cos (1 / 20) * Real.sin (1 / 20) + 0 * 0) =
      Real.sin (1 / 10) := by
    have h : (1 : ℝ) / 10 = 2 * (1 / 20) := by norm_num
    rw [h, Real.sin_two_mul]
    ring
  have h2 : 1 - 2 * (Real.sin (1 / 20) * Real.sin (1 / 20) + 0 * 0) =
      Real.cos (1 / 10) := by
    have h : (1 : ℝ) / 10 = 2 * (1 / 20) := by norm_num
    rw [h, Real.cos_two_mul]
    linear_combination (-2 : ℝ) * Real.sin_sq_add_cos_sq (1 / 20)
  rw [h1, h2, Complex.mk_eq_add_mul_I, Complex.ofReal_cos, Complex.ofReal_sin]
  have hmem : (1 : ℝ) / 10 ∈ Set.Ioc (-Real.pi) Real.pi := by
    constructor
    · nlinarith [Real.pi_gt_three]
    · nlinarith [Real.pi_gt_three]
  rw [Complex.arg_cos_add_sin_mul_I hmem]
  norm_num

/-- Claim C8: a hip-joint update maps the balance estimate `e` to
`0.7·e + 0.3·position`, an IMU update maps it to `0.8·e + 0.2·roll`
(applied in call order); concretely, from estimate 0, a hip update with
position `0.5` yields `0.15`, and a following IMU update whose quaternion
yields roll `0.1` yields `0.8·0.15 + 0.2·0.1 = 0.14`. -/
theorem fusion_balance_updates :
    (∀ (f : SensorFusion) (name : String) (st : JointState),
      containsSeq ['h', 'i', 'p'] name.data = true →
      (updateJointState f name st).balance_estimate =
        0.7 * f.balance_estimate + 0.3 * (st.position : ℝ)) ∧
    (∀ (f : SensorFusion) (name : String) (d : ImuData),
      (updateImuData f name d).balance_estimate =
        0.8 * f.balance_estimate + 0.2 * rollOf d) ∧
    (∀ (f : SensorFusion) (st : JointState) (d : ImuData),
      f.balance_estimate = 0 → st.position = 1 / 2 → rollOf d = 0.1 →
      (updateJointState f leftHip st).balance_estimate = 0.15 ∧
      (updateImuData (updateJointState f leftHip st) torsoImu
          d).balance_estimate = 0.14) := by
  have himu : ∀ (f : SensorFusion) (name : String) (d : ImuData),
      (updateImuData f name d).balance_estimate =
        0.8 * f.balance_estimate + 0.2 * rollOf d := by
    intro f name d
    simp only [updateImuData, updateBalanceEstimateFromImu]
    norm_num
  have hjoint : ∀ (f : SensorFusion) (name : String) (st : JointState),
      containsSeq ['h', 'i', 'p'] name.data = true →
      (updateJointState f name st).balance_estimate =
        0.7 * f.balance_estimate + 0.3 * (st.position : ℝ) := by
    intro f name st h
    simp only [updateJointState, h, if_true, updateBalanceEstimate]
    norm_num
  refine ⟨hjoint, himu, ?_⟩
  intro f st d h0 hp hr
  have hhip : containsSeq ['h', 'i', 'p'] leftHip.data = true := by decide
  have e1 := hjoint f leftHip st hhip
  rw [h0, hp] at e1
  have e1' : (updateJointState f leftHip st).balance_estimate = 0.15 := by
    rw [e1]; push_cast; norm_num
  refine ⟨e1', ?_⟩
  have e2 := himu (updateJointState f leftHip st) torsoImu d
  rw [e1', hr] at e2
  rw [e2]; norm_num

/-- Witness for C8: the hip joint `"left_hip"` with position `0.5` from
estimate 0, then the roll-`0.1` sample. -/
theorem fusion_balance_updates_witness :
    ((updateJointState ⟨[], [], 0, 1⟩ leftHip ⟨1 / 2, 0, 0, 25⟩).balance_estimate =
      0.7 * (SensorFusion.mk [] [] 0 1).balance_estimate +
        0.3 * ((JointState.mk (1 / 2) 0 0 25).position : ℝ)) ∧
    ((updateImuData ⟨[], [], 0, 1⟩ torsoImu rollSample).balance_estimate =
      0.8 * (SensorFusion.mk [] [] 0 1).balance_estimate + 0.2 * rollOf rollSample) ∧
    ((updateJointState ⟨[], [], 0, 1⟩ leftHip ⟨1 / 2, 0, 0, 25⟩).balance_estimate =
      0.15 ∧
     (updateImuData (updateJointState ⟨[], [], 0, 1⟩ leftHip ⟨1 / 2, 0, 0, 25⟩)
        torsoImu rollSample).balance_estimate = 0.14) :=
  ⟨fusion_balance_updates.1 ⟨[], [], 0, 1⟩ leftHip ⟨1 / 2, 0, 0, 25⟩ (by decide),
   fusion_balance_updates.2.1 ⟨[], [], 0, 1⟩ torsoImu rollSample,
   fusion_balance_updates.2.2 ⟨[], [], 0, 1⟩ ⟨1 / 2, 0, 0, 25⟩ rollSample rfl rfl
     rollSample_roll⟩

end ActuatorSensorControl
